import Mathlib

/-!
Shallow embedding of `src/agents/csv_strands_agent.py` (the only source file
of the repository).  Python strings are modelled as lists of characters
(`Str := List Char`), so that Python's `str.strip`, `str.lower`,
`str.startswith` and slicing become executable list functions.  External
collaborators (the MCP tool server and the LLM) are modelled as explicit
parameters: tool discovery is an `Except` value and each agent turn is an
oracle `Str → Except Str Str` (an `Except.error` models a raised exception).
Printing is modelled by accumulating the printed lines in order.
-/

namespace CSVAgent

/-- Python strings, modelled as lists of characters. -/
abbrev Str := List Char

/-- Python whitespace as stripped by `str.strip()` (the ASCII whitespace
characters: space, tab, newline, carriage return, vertical tab, form feed). -/
def pyIsSpace (c : Char) : Bool :=
  c == ' ' || c == '\t' || c == '\n' || c == '\r' || c == '\x0b' || c == '\x0c'

/-- Python `str.lower()` (ASCII case folding, as in `Char.toLower`). -/
def pyLower (s : Str) : Str := s.map Char.toLower

/-- Python `str.lstrip()`. -/
def pyLstrip (s : Str) : Str := s.dropWhile pyIsSpace

/-- Python `str.rstrip()`. -/
def pyRstrip (s : Str) : Str := (s.reverse.dropWhile pyIsSpace).reverse

/-- Python `str.strip()`: drop whitespace at both ends. -/
def pyStrip (s : Str) : Str := pyLstrip (pyRstrip s)

/-- A tool advertised by the MCP server: a name/description pair
(`tool.name`, `tool.description` in the source). -/
structure Tool where
  name : Str
  description : Str
deriving DecidableEq

/-- The `Model(id=self.model_id)` object built in `initialize`. -/
structure Model where
  id : Str
deriving DecidableEq

/-- The `Agent(...)` object built in `initialize` (agent assembly). -/
structure AgentHandle where
  name : Str
  model : Model
  tools : List Tool
  instructions : Str
deriving DecidableEq

/-- The `MCPClient(lambda: sse_client(url, headers=...))` connection
descriptor: the endpoint URL and the request headers. -/
structure MCPConnection where
  url : Str
  headers : List (Str × Str)
deriving DecidableEq

/-- The `CSVStrandsAgent` object: constructor fields plus the two
initially-`None` fields `agent` and `mcp_client`. -/
structure CSVStrandsAgent where
  mcp_url : Str
  api_key : Str
  model_id : Str
  agent : Option AgentHandle
  mcp_client : Option MCPConnection
deriving DecidableEq

/-- `CSVStrandsAgent.__init__`: `agent` and `mcp_client` start as `None`.
The Python default for the `model_id` parameter is `"gpt-4"`; callers that
omit it pass `initDefaultModelId` explicitly here. -/
def mkCSVStrandsAgent (mcp_url api_key model_id : Str) : CSVStrandsAgent :=
  ⟨mcp_url, api_key, model_id, none, none⟩

/-- The default value of the `model_id` parameter of
`CSVStrandsAgent.__init__` (`"gpt-4"`). -/
def initDefaultModelId : Str := ("gpt-4").data

/-- The connection built in `initialize`:
`sse_client(self.mcp_url, headers={"X-API-Key": self.api_key})`. -/
def mkMCPConnection (a : CSVStrandsAgent) : MCPConnection :=
  ⟨a.mcp_url, [(("X-API-Key").data, a.api_key)]⟩

/-- The system prompt returned by `_get_system_prompt`. -/
def systemPrompt : Str :=
  ("You are an autonomous CSV Processing Agent powered by Strands.\n\nYour capabilities include:\n1. Uploading and processing CSV files\n2. Querying imported data from PostgreSQL tables\n3. Getting statistics and metadata about processed datasets\n4. Tracking the status of CSV processing jobs\n5. Managing and cleaning up completed jobs\n\nWhen processing CSV files:\n- Always validate the CSV format before importing\n- infer column types automatically\n- Cache data in Valkey for fast access\n- Provide detailed statistics about the import\n\nWhen querying data:\n- Use appropriate table names\n- Provide meaningful insights from the data\n- Handle large result sets gracefully\n\nAlways:\n- Be concise and informative in responses\n- Provide job IDs for tracking\n- Alert the user to any errors or issues\n- Suggest next steps after operations").data

/-- The fixed prompt sent by `list_jobs`. -/
def listJobsPrompt : Str :=
  ("List all active CSV processing jobs and their current status.").data

/-- The prompt template of `get_job_status`. -/
def statusPrompt (job_id : Str) : Str :=
  ("Check the status of CSV processing job ").data ++ job_id
    ++ (" and provide details.").data

/-- The prompt template of `query_table` (the `limit` parameter defaults
to `100` in the source). -/
def queryPrompt (table_name : Str) (limit : Nat) : Str :=
  ("Query the ").data ++ table_name ++ (" table and show me the first ").data
    ++ (toString limit).data ++ (" rows with statistics.").data

/-- The prompt template of `analyze_data` (a multi-line f-string whose
continuation lines carry eight spaces of indentation). -/
def analyzePrompt (table_name : Str) : Str :=
  ("Analyze the ").data ++ table_name
    ++ (" table and provide:\n        1. Basic statistics (row count, column count)\n        2. Data type breakdown\n        3. Sample data (first 5 rows)\n        4. Any notable patterns or insights\n        5. Recommendations for data usage").data

/-- The message of the `RuntimeError` raised by every agent method when
`self.agent` is `None`. -/
def notInitMsg : Str := ("Agent not initialized. Call initialize() first.").data

/-- The line printed by `list_jobs` before running the agent. -/
def listLog : Str := ("\n📝 Listing jobs: ").data ++ listJobsPrompt

/-- The line printed by `get_job_status` before running the agent. -/
def statusLog (job_id : Str) : Str :=
  ("\n⏱️  Checking job: ").data ++ statusPrompt job_id

/-- The line printed by `query_table` before running the agent. -/
def queryLog (table_name : Str) (limit : Nat) : Str :=
  ("\n📊 Querying: ").data ++ queryPrompt table_name limit

/-- The line printed by `analyze_data` before running the agent. -/
def analyzeLog (table_name : Str) : Str :=
  ("\n🔍 Analyzing: ").data ++ table_name

/-- The farewell printed on the `exit` command. -/
def farewellLine : Str := ("👋 Goodbye!").data

/-- The farewell printed on `KeyboardInterrupt`. -/
def interruptLine : Str := ("\n👋 Interrupted by user").data

/-- The per-turn error report `print(f"❌ Error: {e}")`. -/
def errLine (e : Str) : Str := ("❌ Error: ").data ++ e

/-- The message printed when a free-form line finds no agent. -/
def freeFormNotInit : Str := ("❌ Agent not initialized").data

/-- The soft warning printed when discovery returns no tools. -/
def noToolsWarning : Str := ("⚠️  No tools found on MCP server").data

/-- Agent assembly (the `Agent(...)` construction inside `initialize`):
binds the fixed name, the model, the discovered tools and the system
prompt, and records the connection in `mcp_client`. -/
def assembleAgent (a : CSVStrandsAgent) (tools : List Tool) : CSVStrandsAgent :=
  { a with
      mcp_client := some (mkMCPConnection a),
      agent := some ⟨("CSV Processor Agent").data, ⟨a.model_id⟩, tools, systemPrompt⟩ }

/-- `CSVStrandsAgent.initialize`, with the external tool-discovery call
modelled by `disc` (an `Except.error` models any exception raised inside
the `try` block, e.g. a connection failure).  Returns the printed lines and
either the exception (re-raised by the `except` clause) or the updated
object.  On an empty tool list a warning is printed and the method returns
early: no `Agent` is assembled. -/
def initAgent (a : CSVStrandsAgent) (disc : Except Str (List Tool)) :
    List Str × Except Str CSVStrandsAgent :=
  let connLine := ("🔌 Connecting to MCP server at ").data ++ a.mcp_url ++ ("...").data
  let discLine := ("📋 Discovering MCP tools...").data
  match disc with
  | Except.error e =>
      ([connLine, discLine, ("❌ Error initializing agent: ").data ++ e], Except.error e)
  | Except.ok tools =>
      if tools.isEmpty then
        ([connLine, discLine, noToolsWarning],
         Except.ok { a with mcp_client := some (mkMCPConnection a) })
      else
        ([connLine, discLine,
          ("✅ Found ").data ++ (toString tools.length).data ++ (" tools:").data]
          ++ tools.map (fun t => ("   - ").data ++ t.name ++ (": ").data ++ t.description)
          ++ [("✅ Agent initialized successfully: ").data ++ ("CSV Processor Agent").data],
         Except.ok (assembleAgent a tools))

/-- The command chosen by one REPL iteration of `main` for a given raw
input line (the branch structure of the `while` loop body). -/
inductive Action where
  | noop
  | exitCmd
  | listJobs
  | status (job_id : Str)
  | query (table_name : Str) (limit : Nat)
  | analyze (table_name : Str)
  | freeForm (prompt : Str)
deriving DecidableEq

/-- The branch chain of the `main` loop body on the already-stripped
input `user_input`: test (in source order) empty, `exit`, `list`, the
prefixes `status ` / `query ` / `analyze ` on the lowered line (slicing
the original, preserving its casing), else free-form.  `query` always
passes the default limit `100`. -/
def dispatchStripped (s : Str) : Action :=
  if s.isEmpty then Action.noop
  else if pyLower s = ("exit").data then Action.exitCmd
  else if pyLower s = ("list").data then Action.listJobs
  else if (("status ").data).isPrefixOf (pyLower s) then Action.status (pyStrip (s.drop 7))
  else if (("query ").data).isPrefixOf (pyLower s) then Action.query (pyStrip (s.drop 6)) 100
  else if (("analyze ").data).isPrefixOf (pyLower s) then Action.analyze (pyStrip (s.drop 8))
  else Action.freeForm s

/-- The REPL dispatch of `main`: `user_input = input("\n> ").strip()`,
then the branch chain on the stripped line. -/
def dispatch (line : Str) : Action :=
  dispatchStripped (pyStrip line)

/-- One agent-method call as performed inside the REPL `try` block:
check `self.agent`, print the method's log line, run the agent on the
prompt, print the response; a `RuntimeError` or an error from the run is
caught by the `except Exception` clause, which prints one error line and
lets the loop continue.  Result: (printed lines, prompts forwarded to the
agent, whether the loop breaks). -/
def runAgentMethod (a : CSVStrandsAgent) (rt : Str → Except Str Str)
    (log prompt : Str) : List Str × List Str × Bool :=
  match a.agent with
  | none => ([errLine notInitMsg], [], false)
  | some _ =>
      match rt prompt with
      | Except.ok r => ([log, r], [prompt], false)
      | Except.error e => ([log, errLine e], [prompt], false)

/-- One full REPL iteration body of `main` on a raw input line. -/
def processLine (a : CSVStrandsAgent) (rt : Str → Except Str Str)
    (line : Str) : List Str × List Str × Bool :=
  match dispatch line with
  | Action.noop => ([], [], false)
  | Action.exitCmd => ([farewellLine], [], true)
  | Action.listJobs => runAgentMethod a rt listLog listJobsPrompt
  | Action.status j => runAgentMethod a rt (statusLog j) (statusPrompt j)
  | Action.query t n => runAgentMethod a rt (queryLog t n) (queryPrompt t n)
  | Action.analyze t => runAgentMethod a rt (analyzeLog t) (analyzePrompt t)
  | Action.freeForm s =>
      match a.agent with
      | none => ([freeFormNotInit], [], false)
      | some _ =>
          match rt s with
          | Except.ok r => ([r], [s], false)
          | Except.error e => ([errLine e], [s], false)

/-- The prompt that the dispatch of a line would forward to the agent
(meaningful when the dispatch is a turn, i.e. not `noop`/`exitCmd`). -/
def promptOf (line : Str) : Str :=
  match dispatch line with
  | Action.noop => []
  | Action.exitCmd => []
  | Action.listJobs => listJobsPrompt
  | Action.status j => statusPrompt j
  | Action.query t n => queryPrompt t n
  | Action.analyze t => analyzePrompt t
  | Action.freeForm s => s

/-- A console event as seen by the blocking `input()` call: a line of
text, or a `KeyboardInterrupt` delivered while waiting for input. -/
inductive InputEvent where
  | line (s : Str)
  | interrupt
deriving DecidableEq

/-- How the REPL loop ended: `terminated` by `exit`/interrupt (a `break`),
or `exhausted` when the modelled input stream ran out. -/
inductive EndState where
  | terminated
  | exhausted
deriving DecidableEq

/-- Result of running the REPL loop: printed lines, forwarded prompts,
input events never read, and how the loop ended. -/
structure ReplResult where
  outputs : List Str
  forwarded : List Str
  unread : List InputEvent
  finished : EndState
deriving DecidableEq

/-- The `while True` loop of `main` over a stream of input events.
`KeyboardInterrupt` prints the interrupt farewell and breaks; an `exit`
line breaks after its farewell; all remaining events stay unread after a
break. -/
def replLoop (a : CSVStrandsAgent) (rt : Str → Except Str Str) :
    List InputEvent → ReplResult
  | [] => ⟨[], [], [], EndState.exhausted⟩
  | InputEvent.interrupt :: rest => ⟨[interruptLine], [], rest, EndState.terminated⟩
  | InputEvent.line s :: rest =>
      match processLine a rt s with
      | (out, fwd, brk) =>
        if brk then ⟨out, fwd, rest, EndState.terminated⟩
        else
          let r := replLoop a rt rest
          ⟨out ++ r.outputs, fwd ++ r.forwarded, r.unread, r.finished⟩

/-- The `CSVStrandsAgent` object constructed in `main`: two environment
reads with literal defaults (`os.getenv`), and the `model_id` parameter
left at its `__init__` default (`main` does not pass it and reads no
environment value for it). -/
def mainAgent0 (env : String → Option String) : CSVStrandsAgent :=
  mkCSVStrandsAgent
    ((env "MCP_SERVER_URL").getD "http://localhost:3000/sse").data
    ((env "API_KEY").getD "change-me-in-production").data
    initDefaultModelId

/-- Result of a whole process run: the exit status, printed lines,
prompts forwarded to the agent, and input events never read. -/
structure MainResult where
  exitCode : Nat
  outputs : List Str
  forwarded : List Str
  unread : List InputEvent
deriving DecidableEq

/-- The banner printed at the top of `main`. -/
def sixtyEqs : Str := List.replicate 60 '='

/-- The startup banner lines of `main`. -/
def bannerLines : List Str :=
  [sixtyEqs, ("🤖 CSV Strands Agent - Autonomous CSV Processing").data, sixtyEqs]

/-- The header printed before the automatic example `list_jobs` call. -/
def exampleHeader : List Str :=
  [("\n").data ++ sixtyEqs, ("📚 Example: List active jobs").data, sixtyEqs]

/-- The interactive-mode header and command help of `main`. -/
def interactiveHeader : List Str :=
  [("\n").data ++ sixtyEqs,
   ("🔄 Interactive Mode - Type your CSV processing requests").data,
   ("Commands:").data,
   ("  analyze <table>  - Analyze a table").data,
   ("  query <table>    - Query a table").data,
   ("  status <job_id>  - Check job status").data,
   ("  list             - List all jobs").data,
   ("  exit             - Exit the agent").data,
   sixtyEqs]

/-- The two lines printed by the outer `except` clause of `main` before
`sys.exit(1)`. -/
def initFailLines (e : Str) : List Str :=
  [("❌ Agent initialization failed: ").data ++ e,
   ("Make sure the MCP server is running and accessible").data]

/-- The whole `main` coroutine: configuration load, `initialize`, the
automatic `list_jobs` example, then the interactive loop.  Any exception
escaping the outer `try` (a discovery/assembly failure re-raised by
`initialize`, or the `RuntimeError` from the automatic `list_jobs` when no
agent was assembled) is printed and the process exits with status 1;
reaching the loop and leaving it by `exit`/interrupt (or running out of
modelled input) exits with status 0. -/
def mainRun (env : String → Option String) (disc : Except Str (List Tool))
    (rt : Str → Except Str Str) (events : List InputEvent) : MainResult :=
  let a0 := mainAgent0 env
  match initAgent a0 disc with
  | (initOut, Except.error e) =>
      ⟨1, bannerLines ++ initOut ++ initFailLines e, [], events⟩
  | (initOut, Except.ok a1) =>
      match a1.agent with
      | none =>
          ⟨1, bannerLines ++ initOut ++ exampleHeader ++ initFailLines notInitMsg,
           [], events⟩
      | some _ =>
          match rt listJobsPrompt with
          | Except.error e =>
              ⟨1, bannerLines ++ initOut ++ exampleHeader ++ [listLog]
                  ++ initFailLines e,
               [listJobsPrompt], events⟩
          | Except.ok r =>
              let rr := replLoop a1 rt events
              ⟨0, bannerLines ++ initOut ++ exampleHeader ++ [listLog, r]
                  ++ interactiveHeader ++ rr.outputs,
               listJobsPrompt :: rr.forwarded, rr.unread⟩

/-! ### Helper lemmas about the Python string primitives -/

theorem dropWhile_self_idem (p : α → Bool) (l : List α) :
    (l.dropWhile p).dropWhile p = l.dropWhile p := by
  induction l with
  | nil => simp
  | cons a l ih =>
      cases h : p a with
      | true => simpa [List.dropWhile_cons, h] using ih
      | false => simp [List.dropWhile_cons, h]

theorem pyRstrip_ne_nil_of_strip (l : Str) (h : pyStrip l ≠ []) : pyRstrip l ≠ [] := by
  intro hc
  apply h
  simp [pyStrip, hc, pyLstrip]

theorem pyRstrip_cons (c : Char) (l : Str) (h : pyRstrip l ≠ []) :
    pyRstrip (c :: l) = c :: pyRstrip l := by
  have hd : l.reverse.dropWhile pyIsSpace ≠ [] := by
    intro hc
    apply h
    simp [pyRstrip, hc]
  simp only [pyRstrip, List.reverse_cons, List.dropWhile_append]
  rw [if_neg (by simpa using hd)]
  simp

theorem pyRstrip_append (l₁ l₂ : Str) (h : pyRstrip l₂ ≠ []) :
    pyRstrip (l₁ ++ l₂) = l₁ ++ pyRstrip l₂ := by
  have hd : l₂.reverse.dropWhile pyIsSpace ≠ [] := by
    intro hc
    apply h
    simp [pyRstrip, hc]
  simp only [pyRstrip, List.reverse_append, List.dropWhile_append]
  rw [if_neg (by simpa using hd)]
  simp

theorem pyRstrip_idem (l : Str) : pyRstrip (pyRstrip l) = pyRstrip l := by
  simp [pyRstrip, dropWhile_self_idem]

theorem pyStrip_pyRstrip (l : Str) : pyStrip (pyRstrip l) = pyStrip l := by
  simp [pyStrip, pyRstrip_idem]

theorem pyLstrip_cons_of_nonspace (c : Char) (l : Str) (h : pyIsSpace c = false) :
    pyLstrip (c :: l) = c :: l := by
  simp [pyLstrip, List.dropWhile_cons, h]

theorem toLower_of_space (c : Char) (h : pyIsSpace c = true) : Char.toLower c = c := by
  simp only [pyIsSpace, Bool.or_eq_true, beq_iff_eq] at h
  rcases h with ((((h | h) | h) | h) | h) | h <;> subst h <;> decide

theorem not_space_of_toLower_eq (c d : Char) (hd : pyIsSpace d = false)
    (h : Char.toLower c = d) : pyIsSpace c = false := by
  cases hc : pyIsSpace c with
  | false => rfl
  | true =>
      rw [toLower_of_space c hc] at h
      subst h
      rw [hc] at hd
      exact absurd hd (by simp)

theorem isPrefixOf_append_self (l₁ l₂ : Str) : l₁.isPrefixOf (l₁ ++ l₂) = true := by
  induction l₁ with
  | nil => simp
  | cons a l ih => simp [List.isPrefixOf_cons₂, ih]

theorem isPrefixOf_cons_ne (a b : Char) (as bs : Str) (h : a ≠ b) :
    (a :: as).isPrefixOf (b :: bs) = false := by
  simp [List.isPrefixOf_cons₂, h]

/-- Stripping a line `P` + `' '` + `arg` whose head is not whitespace and
whose argument has a non-whitespace character keeps `P` and the separator
and right-strips the argument. -/
theorem pyStrip_sep (c : Char) (p arg : Str) (hc : pyIsSpace c = false)
    (ha : pyStrip arg ≠ []) :
    pyStrip ((c :: p) ++ ' ' :: arg) = (c :: p) ++ ' ' :: pyRstrip arg := by
  have hR : pyRstrip arg ≠ [] := pyRstrip_ne_nil_of_strip arg ha
  have h1 : pyRstrip (' ' :: arg) = ' ' :: pyRstrip arg := pyRstrip_cons ' ' arg hR
  have h2 : pyRstrip ((c :: p) ++ ' ' :: arg) = (c :: p) ++ ' ' :: pyRstrip arg := by
    rw [pyRstrip_append (c :: p) (' ' :: arg) (by rw [h1]; simp), h1]
  rw [pyStrip, h2, List.cons_append, pyLstrip_cons_of_nonspace c _ hc]

theorem pyLower_append (l₁ l₂ : Str) : pyLower (l₁ ++ l₂) = pyLower l₁ ++ pyLower l₂ := by
  simp [pyLower]

theorem pyLower_cons (c : Char) (l : Str) :
    pyLower (c :: l) = Char.toLower c :: pyLower l := by
  simp [pyLower]

theorem pyLower_length (l : Str) : (pyLower l).length = l.length := by
  simp [pyLower]

/-- Shape of a stripped, lowered command line `p ++ ' ' :: arg` whose
command word lowers to `d :: ds` (a word starting with a non-space
character) and whose argument is not pure whitespace. -/
theorem pyStrip_lower_line (p arg : Str) (d : Char) (ds : Str)
    (hp : pyLower p = d :: ds) (hd : pyIsSpace d = false) (ha : pyStrip arg ≠ []) :
    pyStrip (p ++ ' ' :: arg) = p ++ ' ' :: pyRstrip arg ∧
    pyLower (p ++ ' ' :: pyRstrip arg) = (d :: ds) ++ ' ' :: pyLower (pyRstrip arg) := by
  obtain ⟨c, p', rfl⟩ : ∃ c p', p = c :: p' := by
    cases p with
    | nil => simp [pyLower] at hp
    | cons c p' => exact ⟨c, p', rfl⟩
  have hc : Char.toLower c = d := by
    rw [pyLower_cons] at hp
    exact (List.cons.injEq _ _ _ _ ▸ hp).1
  have hcs : pyIsSpace c = false := not_space_of_toLower_eq c d hd hc
  refine ⟨pyStrip_sep c p' arg hcs ha, ?_⟩
  rw [pyLower_append, hp, pyLower_cons]
  have hsp : Char.toLower ' ' = ' ' := by decide
  rw [hsp]

theorem dispatch_status_eq (p arg : Str) (hp : pyLower p = ("status").data)
    (ha : pyStrip arg ≠ []) :
    dispatch (p ++ ' ' :: arg) = Action.status (pyStrip arg) := by
  have hdat : ("status").data = 's' :: ("tatus").data := rfl
  obtain ⟨hs, hl⟩ :=
    pyStrip_lower_line p arg 's' (("tatus").data) (hdat ▸ hp) (by decide) ha
  rw [← hdat] at hl
  have hR : pyRstrip arg ≠ [] := pyRstrip_ne_nil_of_strip arg ha
  have hRpos : 0 < (pyRstrip arg).length := List.length_pos.mpr hR
  have hplen : p.length = 6 := by
    have h := congrArg List.length hp
    rw [pyLower_length] at h
    exact h
  have hpne : p ≠ [] := by
    intro h
    rw [h] at hplen
    simp at hplen
  have hslen : (pyLower (p ++ ' ' :: pyRstrip arg)).length = 7 + (pyRstrip arg).length := by
    rw [pyLower_length]
    simp [hplen]
    omega
  have hx : pyLower (p ++ ' ' :: pyRstrip arg) ≠ ("exit").data := by
    intro h
    have := congrArg List.length h
    rw [hslen] at this
    have h4 : ((("exit").data : Str)).length = 4 := rfl
    omega
  have hli : pyLower (p ++ ' ' :: pyRstrip arg) ≠ ("list").data := by
    intro h
    have := congrArg List.length h
    rw [hslen] at this
    have h4 : ((("list").data : Str)).length = 4 := rfl
    omega
  have hpre : (("status ").data).isPrefixOf (pyLower (p ++ ' ' :: pyRstrip arg)) = true := by
    rw [hl]
    have h1 : (("status ").data : Str) = ("status").data ++ [' '] := rfl
    have h2 : (("status").data : Str) ++ ' ' :: pyLower (pyRstrip arg)
        = (("status").data ++ [' ']) ++ pyLower (pyRstrip arg) := by simp
    rw [h1, h2]
    exact isPrefixOf_append_self _ _
  have hdrop : (p ++ ' ' :: pyRstrip arg).drop 7 = pyRstrip arg := by
    have h1 : p ++ ' ' :: pyRstrip arg = (p ++ [' ']) ++ pyRstrip arg := by simp
    rw [h1, List.drop_left' (by simp [hplen])]
  have hne : (p ++ ' ' :: pyRstrip arg).isEmpty = false := by
    simp [List.isEmpty_iff, hpne]
  rw [dispatch, hs, dispatchStripped, if_neg (by simp [hne]), if_neg hx, if_neg hli,
    if_pos hpre, hdrop, pyStrip_pyRstrip]

theorem dispatch_query_eq (p arg : Str) (hp : pyLower p = ("query").data)
    (ha : pyStrip arg ≠ []) :
    dispatch (p ++ ' ' :: arg) = Action.query (pyStrip arg) 100 := by
  have hdat : ("query").data = 'q' :: ("uery").data := rfl
  obtain ⟨hs, hl⟩ :=
    pyStrip_lower_line p arg 'q' (("uery").data) (hdat ▸ hp) (by decide) ha
  rw [← hdat] at hl
  have hR : pyRstrip arg ≠ [] := pyRstrip_ne_nil_of_strip arg ha
  have hRpos : 0 < (pyRstrip arg).length := List.length_pos.mpr hR
  have hplen : p.length = 5 := by
    have h := congrArg List.length hp
    rw [pyLower_length] at h
    exact h
  have hpne : p ≠ [] := by
    intro h
    rw [h] at hplen
    simp at hplen
  have hslen : (pyLower (p ++ ' ' :: pyRstrip arg)).length = 6 + (pyRstrip arg).length := by
    rw [pyLower_length]
    simp [hplen]
    omega
  have hx : pyLower (p ++ ' ' :: pyRstrip arg) ≠ ("exit").data := by
    intro h
    have := congrArg List.length h
    rw [hslen] at this
    have h4 : ((("exit").data : Str)).length = 4 := rfl
    omega
  have hli : pyLower (p ++ ' ' :: pyRstrip arg) ≠ ("list").data := by
    intro h
    have := congrArg List.length h
    rw [hslen] at this
    have h4 : ((("list").data : Str)).length = 4 := rfl
    omega
  have hnst : (("status ").data).isPrefixOf (pyLower (p ++ ' ' :: pyRstrip arg)) = false := by
    rw [hl]
    have h1 : (("status ").data : Str) = 's' :: ("tatus ").data := rfl
    have h2 : (("query").data : Str) ++ ' ' :: pyLower (pyRstrip arg)
        = 'q' :: (("uery").data ++ ' ' :: pyLower (pyRstrip arg)) := rfl
    rw [h1, h2]
    exact isPrefixOf_cons_ne _ _ _ _ (by decide)
  have hpre : (("query ").data).isPrefixOf (pyLower (p ++ ' ' :: pyRstrip arg)) = true := by
    rw [hl]
    have h1 : (("query ").data : Str) = ("query").data ++ [' '] := rfl
    have h2 : (("query").data : Str) ++ ' ' :: pyLower (pyRstrip arg)
        = (("query").data ++ [' ']) ++ pyLower (pyRstrip arg) := by simp
    rw [h1, h2]
    exact isPrefixOf_append_self _ _
  have hdrop : (p ++ ' ' :: pyRstrip arg).drop 6 = pyRstrip arg := by
    have h1 : p ++ ' ' :: pyRstrip arg = (p ++ [' ']) ++ pyRstrip arg := by simp
    rw [h1, List.drop_left' (by simp [hplen])]
  have hne : (p ++ ' ' :: pyRstrip arg).isEmpty = false := by
    simp [List.isEmpty_iff, hpne]
  rw [dispatch, hs, dispatchStripped, if_neg (by simp [hne]), if_neg hx, if_neg hli,
    if_neg (by simp [hnst]), if_pos hpre, hdrop, pyStrip_pyRstrip]

theorem dispatch_analyze_eq (p arg : Str) (hp : pyLower p = ("analyze").data)
    (ha : pyStrip arg ≠ []) :
    dispatch (p ++ ' ' :: arg) = Action.analyze (pyStrip arg) := by
  have hdat : ("analyze").data = 'a' :: ("nalyze").data := rfl
  obtain ⟨hs, hl⟩ :=
    pyStrip_lower_line p arg 'a' (("nalyze").data) (hdat ▸ hp) (by decide) ha
  rw [← hdat] at hl
  have hR : pyRstrip arg ≠ [] := pyRstrip_ne_nil_of_strip arg ha
  have hRpos : 0 < (pyRstrip arg).length := List.length_pos.mpr hR
  have hplen : p.length = 7 := by
    have h := congrArg List.length hp
    rw [pyLower_length] at h
    exact h
  have hpne : p ≠ [] := by
    intro h
    rw [h] at hplen
    simp at hplen
  have hslen : (pyLower (p ++ ' ' :: pyRstrip arg)).length = 8 + (pyRstrip arg).length := by
    rw [pyLower_length]
    simp [hplen]
    omega
  have hx : pyLower (p ++ ' ' :: pyRstrip arg) ≠ ("exit").data := by
    intro h
    have := congrArg List.length h
    rw [hslen] at this
    have h4 : ((("exit").data : Str)).length = 4 := rfl
    omega
  have hli : pyLower (p ++ ' ' :: pyRstrip arg) ≠ ("list").data := by
    intro h
    have := congrArg List.length h
    rw [hslen] at this
    have h4 : ((("list").data : Str)).length = 4 := rfl
    omega
  have hnst : (("status ").data).isPrefixOf (pyLower (p ++ ' ' :: pyRstrip arg)) = false := by
    rw [hl]
    have h1 : (("status ").data : Str) = 's' :: ("tatus ").data := rfl
    have h2 : (("analyze").data : Str) ++ ' ' :: pyLower (pyRstrip arg)
        = 'a' :: (("nalyze").data ++ ' ' :: pyLower (pyRstrip arg)) := rfl
    rw [h1, h2]
    exact isPrefixOf_cons_ne _ _ _ _ (by decide)
  have hnq : (("query ").data).isPrefixOf (pyLower (p ++ ' ' :: pyRstrip arg)) = false := by
    rw [hl]
    have h1 : (("query ").data : Str) = 'q' :: ("uery ").data := rfl
    have h2 : (("analyze").data : Str) ++ ' ' :: pyLower (pyRstrip arg)
        = 'a' :: (("nalyze").data ++ ' ' :: pyLower (pyRstrip arg)) := rfl
    rw [h1, h2]
    exact isPrefixOf_cons_ne _ _ _ _ (by decide)
  have hpre : (("analyze ").data).isPrefixOf (pyLower (p ++ ' ' :: pyRstrip arg)) = true := by
    rw [hl]
    have h1 : (("analyze ").data : Str) = ("analyze").data ++ [' '] := rfl
    have h2 : (("analyze").data : Str) ++ ' ' :: pyLower (pyRstrip arg)
        = (("analyze").data ++ [' ']) ++ pyLower (pyRstrip arg) := by simp
    rw [h1, h2]
    exact isPrefixOf_append_self _ _
  have hdrop : (p ++ ' ' :: pyRstrip arg).drop 8 = pyRstrip arg := by
    have h1 : p ++ ' ' :: pyRstrip arg = (p ++ [' ']) ++ pyRstrip arg := by simp
    rw [h1, List.drop_left' (by simp [hplen])]
  have hne : (p ++ ' ' :: pyRstrip arg).isEmpty = false := by
    simp [List.isEmpty_iff, hpne]
  rw [dispatch, hs, dispatchStripped, if_neg (by simp [hne]), if_neg hx, if_neg hli,
    if_neg (by simp [hnst]), if_neg (by simp [hnq]), if_pos hpre, hdrop, pyStrip_pyRstrip]

/-! ### Glue definitions and lemmas used by the claim theorems -/

/-- A dispatch outcome that is an agent turn (not the empty-line no-op and
not the `exit` command). -/
def isTurnAction (act : Action) : Prop := act ≠ Action.noop ∧ act ≠ Action.exitCmd

/-- Whether a printed line is a per-turn error report (the
`print(f"❌ Error: {e}")` of the inner `except Exception` clause). -/
def isErrOutput (o : Str) : Bool := (("❌ Error: ").data).isPrefixOf o

theorem isErrOutput_errLine (e : Str) : isErrOutput (errLine e) = true :=
  isPrefixOf_append_self _ _

theorem isErrOutput_newline (l : Str) : isErrOutput ('\n' :: l) = false := by
  have h1 : ((("❌ Error: ").data : Str)) = '❌' :: (" Error: ").data := rfl
  rw [isErrOutput, h1]
  exact isPrefixOf_cons_ne _ _ _ _ (by decide)

theorem isErrOutput_listLog : isErrOutput listLog = false := by
  have h : listLog = '\n' :: (((("📝 Listing jobs: ").data : Str)) ++ listJobsPrompt) := rfl
  rw [h]
  exact isErrOutput_newline _

theorem isErrOutput_statusLog (j : Str) : isErrOutput (statusLog j) = false := by
  have h : statusLog j = '\n' :: (((("⏱️  Checking job: ").data : Str)) ++ statusPrompt j) := rfl
  rw [h]
  exact isErrOutput_newline _

theorem isErrOutput_queryLog (t : Str) (n : Nat) : isErrOutput (queryLog t n) = false := by
  have h : queryLog t n = '\n' :: (((("📊 Querying: ").data : Str)) ++ queryPrompt t n) := rfl
  rw [h]
  exact isErrOutput_newline _

theorem isErrOutput_analyzeLog (t : Str) : isErrOutput (analyzeLog t) = false := by
  have h : analyzeLog t = '\n' :: (((("🔍 Analyzing: ").data : Str)) ++ t) := rfl
  rw [h]
  exact isErrOutput_newline _

/-- A sample discovered tool, for concrete witnesses. -/
def sampleTool : Tool := ⟨("upload_csv").data, ("Upload and process a CSV file").data⟩

/-- The empty environment (no variable set). -/
def emptyEnv : String → Option String := fun _ => none

/-- An environment that maps every variable to `"custom-model"`. -/
def constEnv : String → Option String := fun _ => some "custom-model"

/-- An agent-turn oracle that always answers normally. -/
def okResponder : Str → Except Str Str := fun _ => Except.ok (("done").data)

/-- An agent-turn oracle that always raises. -/
def errResponder : Str → Except Str Str := fun _ => Except.error (("boom").data)

/-- The agent handle assembled from the default configuration and the
sample tool. -/
def readyHandle : AgentHandle :=
  ⟨("CSV Processor Agent").data, ⟨initDefaultModelId⟩, [sampleTool], systemPrompt⟩

/-- A `CSVStrandsAgent` after successful assembly. -/
def readyAgent : CSVStrandsAgent := assembleAgent (mainAgent0 emptyEnv) [sampleTool]

/-- A `CSVStrandsAgent` before any assembly (`self.agent is None`). -/
def uninitAgent : CSVStrandsAgent := mainAgent0 emptyEnv

/-! ### Claim theorems -/

/-- C1, counterexample to the claim as stated: with discovery returning an
empty tool sequence (environment unset, a well-behaved agent oracle, and a
pending input line), the process does NOT continue into the interactive
session: it exits with status 1, forwards nothing to the agent, and never
reads the pending input line. -/
theorem claim1_counterexample :
    (mainRun emptyEnv (Except.ok []) okResponder [InputEvent.line (("list").data)]).exitCode = 1
    ∧ (mainRun emptyEnv (Except.ok []) okResponder [InputEvent.line (("list").data)]).forwarded = []
    ∧ (mainRun emptyEnv (Except.ok []) okResponder [InputEvent.line (("list").data)]).unread
        = [InputEvent.line (("list").data)] :=
  ⟨rfl, rfl, rfl⟩

/-- C1, amended: if tool discovery returns an empty tool sequence,
`initialize` records the warning and returns without raising, but skips
agent assembly (the agent handle stays absent); the automatic list-jobs
call of `main` then fails with the "Agent not initialized" condition,
which the startup handler treats as fatal: the process exits with status
1, forwards no instruction, and never enters the interactive session
(every input event stays unread). -/
theorem claim1_amended : ∀ (env : String → Option String) (rt : Str → Except Str Str)
    (events : List InputEvent),
    noToolsWarning ∈ (initAgent (mainAgent0 env) (Except.ok [])).1
    ∧ (initAgent (mainAgent0 env) (Except.ok [])).2
        = Except.ok { mainAgent0 env with mcp_client := some (mkMCPConnection (mainAgent0 env)) }
    ∧ (mainAgent0 env).agent = none
    ∧ notInitMsg ∈ (mainRun env (Except.ok []) rt events).outputs.map
        (fun o => o.drop (("❌ Agent initialization failed: ").data).length)
    ∧ (mainRun env (Except.ok []) rt events).exitCode = 1
    ∧ (mainRun env (Except.ok []) rt events).forwarded = []
    ∧ (mainRun env (Except.ok []) rt events).unread = events := by
  intro env rt events
  refine ⟨?_, rfl, rfl, ?_, rfl, rfl, rfl⟩
  · have h1 : (initAgent (mainAgent0 env) (Except.ok [])).1
        = [("🔌 Connecting to MCP server at ").data ++ (mainAgent0 env).mcp_url ++ ("...").data,
           ("📋 Discovering MCP tools...").data, noToolsWarning] := rfl
    rw [h1]
    simp
  · have h2 : (mainRun env (Except.ok []) rt events).outputs
        = bannerLines
          ++ [("🔌 Connecting to MCP server at ").data ++ (mainAgent0 env).mcp_url ++ ("...").data,
              ("📋 Discovering MCP tools...").data, noToolsWarning]
          ++ exampleHeader
          ++ initFailLines notInitMsg := rfl
    rw [h2]
    refine List.mem_map.mpr ⟨(("❌ Agent initialization failed: ").data) ++ notInitMsg, ?_, ?_⟩
    · simp [initFailLines]
    · rw [List.drop_left]

/-- C2, counterexample to the claim as stated: even with every
environment variable set (here uniformly to `custom-model`), the model
identifier of the constructed agent is still the literal `gpt-4`: `main`
reads no environment value for the model identifier, so the claim's
"three named environment values" is wrong. -/
theorem claim2_counterexample :
    (mainAgent0 constEnv).model_id = ("gpt-4").data
    ∧ (mainAgent0 constEnv).model_id ≠ ("custom-model").data :=
  ⟨rfl, by decide⟩

/-- C2, amended: the configuration loader reads two named environment
values, `MCP_SERVER_URL` (default `http://localhost:3000/sse`) and
`API_KEY` (default `change-me-in-production`), and never raises; the
model identifier is the fixed `__init__` default `gpt-4` regardless of
the environment; with the environment unset, the discovery connection is
built with exactly the default endpoint and exactly the default
credential in the `X-API-Key` request header, and the initialized object
carries that connection. -/
theorem claim2_amended : ∀ (env : String → Option String) (tools : List Tool),
    (mainAgent0 env).mcp_url = ((env "MCP_SERVER_URL").getD "http://localhost:3000/sse").data
    ∧ (mainAgent0 env).api_key = ((env "API_KEY").getD "change-me-in-production").data
    ∧ (mainAgent0 env).model_id = ("gpt-4").data
    ∧ mkMCPConnection (mainAgent0 emptyEnv)
        = ⟨("http://localhost:3000/sse").data,
           [(("X-API-Key").data, ("change-me-in-production").data)]⟩
    ∧ (∃ a', (initAgent (mainAgent0 emptyEnv) (Except.ok tools)).2 = Except.ok a'
          ∧ a'.mcp_client = some (mkMCPConnection (mainAgent0 emptyEnv))) := by
  intro env tools
  refine ⟨rfl, rfl, rfl, rfl, ?_⟩
  cases tools with
  | nil => exact ⟨_, rfl, rfl⟩
  | cons t ts => exact ⟨_, rfl, rfl⟩

/-- C3, counterexample to the claim as stated: the claim quantifies over
every argument string, but for the empty argument the line `status `
strips to `status`, which does not match the `status ` prefix and is
forwarded verbatim as a free-form instruction, not as the status
template. -/
theorem claim3_counterexample :
    (processLine readyAgent okResponder (("status ").data)).2.1 = [("status").data]
    ∧ ((("status").data : Str)) ≠ statusPrompt [] :=
  ⟨rfl, by decide⟩

/-- C3, amended: for every recognized prefix P in status/query/analyze,
any casing of P, and every argument string whose trim is nonempty, the
input line `P <arg>` produces exactly one forwarded instruction, built
from the template corresponding to P (and no other prefix's template),
containing the trimmed argument literally (original casing preserved). -/
theorem claim3_amended : ∀ (a : CSVStrandsAgent) (hnd : AgentHandle)
    (rt : Str → Except Str Str) (p arg : Str) (tmpl : Str → Str),
    a.agent = some hnd → pyStrip arg ≠ [] →
    ((pyLower p = ("status").data ∧ tmpl = statusPrompt)
      ∨ (pyLower p = ("query").data ∧ tmpl = fun t => queryPrompt t 100)
      ∨ (pyLower p = ("analyze").data ∧ tmpl = analyzePrompt)) →
    (processLine a rt (p ++ ' ' :: arg)).2.1 = [tmpl (pyStrip arg)] := by
  intro a hnd rt p arg tmpl hag ha hsel
  rcases hsel with ⟨hp, rfl⟩ | ⟨hp, rfl⟩ | ⟨hp, rfl⟩
  · have hd := dispatch_status_eq p arg hp ha
    cases hrt : rt (statusPrompt (pyStrip arg)) <;>
      simp [processLine, hd, runAgentMethod, hag, hrt]
  · have hd := dispatch_query_eq p arg hp ha
    cases hrt : rt (queryPrompt (pyStrip arg) 100) <;>
      simp [processLine, hd, runAgentMethod, hag, hrt]
  · have hd := dispatch_analyze_eq p arg hp ha
    cases hrt : rt (analyzePrompt (pyStrip arg)) <;>
      simp [processLine, hd, runAgentMethod, hag, hrt]

/-- C3, witness: the end-to-end scenario `STATUS job-42` forwards exactly
the status template applied to the trimmed argument `job-42`. -/
theorem claim3_witness :
    (processLine readyAgent okResponder ((("STATUS").data) ++ ' ' :: (("job-42").data))).2.1
      = [statusPrompt (pyStrip (("job-42").data))] :=
  claim3_amended readyAgent readyHandle okResponder (("STATUS").data) (("job-42").data)
    statusPrompt rfl (by decide) (Or.inl ⟨by decide, rfl⟩)

/-- C4: every error raised while processing a single command turn is
caught inside the loop; exactly one human-readable error line is printed,
the loop does not break (the dispatcher remains ready), and the remaining
input is processed normally: the session result is the turn's output
followed by the untouched processing of the rest of the stream. -/
theorem claim4_per_turn_recovery : ∀ (a : CSVStrandsAgent) (hnd : AgentHandle)
    (rt : Str → Except Str Str) (line e : Str) (rest : List InputEvent),
    a.agent = some hnd → isTurnAction (dispatch line) →
    rt (promptOf line) = Except.error e →
    (processLine a rt line).1.filter isErrOutput = [errLine e]
    ∧ (processLine a rt line).2.2 = false
    ∧ replLoop a rt (InputEvent.line line :: rest) =
        ⟨(processLine a rt line).1 ++ (replLoop a rt rest).outputs,
         (processLine a rt line).2.1 ++ (replLoop a rt rest).forwarded,
         (replLoop a rt rest).unread, (replLoop a rt rest).finished⟩ := by
  intro a hnd rt line e rest hag hturn hrt
  cases hd : dispatch line with
  | noop => exact absurd hd hturn.1
  | exitCmd => exact absurd hd hturn.2
  | listJobs =>
      rw [show promptOf line = listJobsPrompt by simp [promptOf, hd]] at hrt
      have hPL : processLine a rt line = ([listLog, errLine e], [listJobsPrompt], false) := by
        simp [processLine, hd, runAgentMethod, hag, hrt]
      refine ⟨?_, ?_, ?_⟩
      · rw [hPL]
        simp [List.filter_cons, isErrOutput_listLog, isErrOutput_errLine]
      · rw [hPL]
      · simp [replLoop, hPL]
  | status j =>
      rw [show promptOf line = statusPrompt j by simp [promptOf, hd]] at hrt
      have hPL : processLine a rt line = ([statusLog j, errLine e], [statusPrompt j], false) := by
        simp [processLine, hd, runAgentMethod, hag, hrt]
      refine ⟨?_, ?_, ?_⟩
      · rw [hPL]
        simp [List.filter_cons, isErrOutput_statusLog, isErrOutput_errLine]
      · rw [hPL]
      · simp [replLoop, hPL]
  | query t n =>
      rw [show promptOf line = queryPrompt t n by simp [promptOf, hd]] at hrt
      have hPL : processLine a rt line = ([queryLog t n, errLine e], [queryPrompt t n], false) := by
        simp [processLine, hd, runAgentMethod, hag, hrt]
      refine ⟨?_, ?_, ?_⟩
      · rw [hPL]
        simp [List.filter_cons, isErrOutput_queryLog, isErrOutput_errLine]
      · rw [hPL]
      · simp [replLoop, hPL]
  | analyze t =>
      rw [show promptOf line = analyzePrompt t by simp [promptOf, hd]] at hrt
      have hPL : processLine a rt line = ([analyzeLog t, errLine e], [analyzePrompt t], false) := by
        simp [processLine, hd, runAgentMethod, hag, hrt]
      refine ⟨?_, ?_, ?_⟩
      · rw [hPL]
        simp [List.filter_cons, isErrOutput_analyzeLog, isErrOutput_errLine]
      · rw [hPL]
      · simp [replLoop, hPL]
  | freeForm s =>
      rw [show promptOf line = s by simp [promptOf, hd]] at hrt
      have hPL : processLine a rt line = ([errLine e], [s], false) := by
        simp [processLine, hd, hag, hrt]
      refine ⟨?_, ?_, ?_⟩
      · rw [hPL]
        simp [List.filter_cons, isErrOutput_errLine]
      · rw [hPL]
      · simp [replLoop, hPL]

/-- C4, witness: a failing turn on the `list` command prints exactly one
error line, does not break, and the loop goes on over the rest of the
(here empty) stream. -/
theorem claim4_witness :
    (processLine readyAgent errResponder (("list").data)).1.filter isErrOutput
        = [errLine (("boom").data)]
    ∧ (processLine readyAgent errResponder (("list").data)).2.2 = false
    ∧ replLoop readyAgent errResponder (InputEvent.line (("list").data) :: []) =
        ⟨(processLine readyAgent errResponder (("list").data)).1
            ++ (replLoop readyAgent errResponder []).outputs,
         (processLine readyAgent errResponder (("list").data)).2.1
            ++ (replLoop readyAgent errResponder []).forwarded,
         (replLoop readyAgent errResponder []).unread,
         (replLoop readyAgent errResponder []).finished⟩ :=
  claim4_per_turn_recovery readyAgent readyHandle errResponder (("list").data)
    (("boom").data) [] rfl (by exact ⟨by decide, by decide⟩) rfl

/-- C5: when the agent handle is absent, every dispatcher operation
(list, status, query, analyze, free-form) forwards nothing to the agent
and fails with an agent-not-initialized report (the caught
`RuntimeError`'s message for the four commands, the direct message for a
free-form turn). -/
theorem claim5_not_initialized : ∀ (a : CSVStrandsAgent) (rt : Str → Except Str Str)
    (line : Str),
    a.agent = none → isTurnAction (dispatch line) →
    (processLine a rt line).2.1 = []
    ∧ ((processLine a rt line).1 = [errLine notInitMsg]
        ∨ (processLine a rt line).1 = [freeFormNotInit]) := by
  intro a rt line hag hturn
  cases hd : dispatch line with
  | noop => exact absurd hd hturn.1
  | exitCmd => exact absurd hd hturn.2
  | listJobs => refine ⟨?_, Or.inl ?_⟩ <;> simp [processLine, hd, runAgentMethod, hag]
  | status j => refine ⟨?_, Or.inl ?_⟩ <;> simp [processLine, hd, runAgentMethod, hag]
  | query t n => refine ⟨?_, Or.inl ?_⟩ <;> simp [processLine, hd, runAgentMethod, hag]
  | analyze t => refine ⟨?_, Or.inl ?_⟩ <;> simp [processLine, hd, runAgentMethod, hag]
  | freeForm s => refine ⟨?_, Or.inr ?_⟩ <;> simp [processLine, hd, hag]

/-- C5, witness: with no agent assembled, a `status` command forwards
nothing and reports the not-initialized condition. -/
theorem claim5_witness :
    (processLine uninitAgent okResponder (("status j1").data)).2.1 = []
    ∧ ((processLine uninitAgent okResponder (("status j1").data)).1 = [errLine notInitMsg]
        ∨ (processLine uninitAgent okResponder (("status j1").data)).1 = [freeFormNotInit]) :=
  claim5_not_initialized uninitAgent okResponder (("status j1").data) rfl
    (by exact ⟨by decide, by decide⟩)

/-- C6: a startup failure (any exception from discovery or agent
assembly, surfaced by `initialize`) is fatal: the failure is reported on
the console and the process exits with status 1 having forwarded nothing
(no retry); whereas once startup succeeded (some tools, first automatic
turn answered), the process exit status is 0, and an interrupt during
input immediately terminates the loop with the farewell line. -/
theorem claim6_exit_codes : ∀ (env : String → Option String) (rt : Str → Except Str Str)
    (events rest : List InputEvent) (e r : Str) (tools : List Tool) (a : CSVStrandsAgent),
    ((mainRun env (Except.error e) rt events).exitCode = 1
      ∧ ((("❌ Agent initialization failed: ").data) ++ e)
          ∈ (mainRun env (Except.error e) rt events).outputs
      ∧ (mainRun env (Except.error e) rt events).forwarded = [])
    ∧ (tools ≠ [] → rt listJobsPrompt = Except.ok r →
        (mainRun env (Except.ok tools) rt events).exitCode = 0)
    ∧ replLoop a rt (InputEvent.interrupt :: rest)
        = ⟨[interruptLine], [], rest, EndState.terminated⟩ := by
  intro env rt events rest e r tools a
  refine ⟨⟨rfl, ?_, rfl⟩, ?_, rfl⟩
  · have h : (mainRun env (Except.error e) rt events).outputs
        = bannerLines
          ++ [("🔌 Connecting to MCP server at ").data ++ (mainAgent0 env).mcp_url ++ ("...").data,
              ("📋 Discovering MCP tools...").data,
              ("❌ Error initializing agent: ").data ++ e]
          ++ initFailLines e := rfl
    rw [h]
    simp [initFailLines]
  · intro ht hrt
    cases tools with
    | nil => exact absurd rfl ht
    | cons t ts => simp [mainRun, initAgent, assembleAgent, hrt]

/-- C6, witness: a concrete discovery failure exits with status 1 and the
failure report; a concrete successful startup exits with status 0; a
concrete interrupt terminates the loop. -/
theorem claim6_witness :
    ((mainRun emptyEnv (Except.error (("boom").data)) okResponder []).exitCode = 1
      ∧ ((("❌ Agent initialization failed: ").data) ++ (("boom").data))
          ∈ (mainRun emptyEnv (Except.error (("boom").data)) okResponder []).outputs
      ∧ (mainRun emptyEnv (Except.error (("boom").data)) okResponder []).forwarded = [])
    ∧ (mainRun emptyEnv (Except.ok [sampleTool]) okResponder
        [InputEvent.line (("exit").data)]).exitCode = 0
    ∧ replLoop readyAgent okResponder (InputEvent.interrupt :: [])
        = ⟨[interruptLine], [], [], EndState.terminated⟩ := by
  refine ⟨(claim6_exit_codes emptyEnv okResponder [] [] (("boom").data) (("done").data)
      [sampleTool] readyAgent).1, ?_, ?_⟩
  · exact (claim6_exit_codes emptyEnv okResponder [InputEvent.line (("exit").data)] []
      (("boom").data) (("done").data) [sampleTool] readyAgent).2.1 (by decide) rfl
  · exact (claim6_exit_codes emptyEnv okResponder [] [] (("boom").data) (("done").data)
      [sampleTool] readyAgent).2.2

/-- C7: an input line that trims (any surrounding whitespace) and lowers
(any casing) to `exit` prints the farewell line, terminates the loop, and
no further input event is ever read: the rest of the stream is returned
unread and nothing is forwarded. -/
theorem claim7_exit_terminates : ∀ (a : CSVStrandsAgent) (rt : Str → Except Str Str)
    (line : Str) (rest : List InputEvent),
    pyLower (pyStrip line) = ("exit").data →
    replLoop a rt (InputEvent.line line :: rest)
      = ⟨[farewellLine], [], rest, EndState.terminated⟩ := by
  intro a rt line rest h
  have hne : (pyStrip line).isEmpty = false := by
    simp only [List.isEmpty_eq_false]
    intro hnil
    rw [hnil] at h
    exact absurd h (by decide)
  have hdp : dispatch line = Action.exitCmd := by
    rw [dispatch, dispatchStripped, if_neg (by simp [hne]), if_pos h]
  have hPL : processLine a rt line = ([farewellLine], [], true) := by
    simp [processLine, hdp]
  simp [replLoop, hPL]

/-- C7, witness: the line `  EXIT  ` terminates the session, leaving the
following event unread. -/
theorem claim7_witness :
    replLoop readyAgent okResponder
        (InputEvent.line (("  EXIT  ").data) :: [InputEvent.line (("list").data)])
      = ⟨[farewellLine], [], [InputEvent.line (("list").data)], EndState.terminated⟩ :=
  claim7_exit_terminates readyAgent okResponder (("  EXIT  ").data)
    [InputEvent.line (("list").data)] (by decide)

/-- C8: an input line consisting only of whitespace (or empty) is a
no-op: nothing is printed, nothing is forwarded, and the loop behaves
exactly as if the line had never been entered. -/
theorem claim8_blank_noop : ∀ (a : CSVStrandsAgent) (rt : Str → Except Str Str)
    (line : Str) (rest : List InputEvent),
    pyStrip line = [] →
    replLoop a rt (InputEvent.line line :: rest) = replLoop a rt rest := by
  intro a rt line rest h
  have hdp : dispatch line = Action.noop := by
    rw [dispatch, dispatchStripped, if_pos (by simp [h])]
  have hPL : processLine a rt line = ([], [], false) := by
    simp [processLine, hdp]
  simp [replLoop, hPL]

/-- C8, witness: a whitespace-only line before `list` leaves the session
exactly as a session that starts at `list`. -/
theorem claim8_witness :
    replLoop readyAgent okResponder
        (InputEvent.line (("   ").data) :: [InputEvent.line (("list").data)])
      = replLoop readyAgent okResponder [InputEvent.line (("list").data)] :=
  claim8_blank_noop readyAgent okResponder (("   ").data)
    [InputEvent.line (("list").data)] (by decide)

/-- C9: after successful agent assembly (nonempty tool list) and before
reading any user input, `main` performs exactly one automatic agent turn
with the fixed list-jobs instruction and prints its response: with an
empty input stream the forwarded instructions are exactly that one
prompt, the response appears in the output, and in general the forwarded
stream starts with the list-jobs prompt before anything the REPL
forwards. -/
theorem claim9_auto_list : ∀ (env : String → Option String) (rt : Str → Except Str Str)
    (r : Str) (tools : List Tool) (events : List InputEvent),
    tools ≠ [] → rt listJobsPrompt = Except.ok r →
    (mainRun env (Except.ok tools) rt []).forwarded = [listJobsPrompt]
    ∧ r ∈ (mainRun env (Except.ok tools) rt []).outputs
    ∧ (mainRun env (Except.ok tools) rt events).forwarded
        = listJobsPrompt :: (replLoop (assembleAgent (mainAgent0 env) tools) rt events).forwarded := by
  intro env rt r tools events ht hrt
  cases tools with
  | nil => exact absurd rfl ht
  | cons t ts =>
      refine ⟨?_, ?_, ?_⟩
      · simp [mainRun, initAgent, assembleAgent, hrt, replLoop]
      · simp [mainRun, initAgent, assembleAgent, hrt]
      · simp [mainRun, initAgent, assembleAgent, hrt]

/-- C9, witness: with one discovered tool and no user input, the process
forwards exactly the list-jobs prompt and prints the oracle's answer. -/
theorem claim9_witness :
    (mainRun emptyEnv (Except.ok [sampleTool]) okResponder []).forwarded = [listJobsPrompt]
    ∧ (("done").data : Str) ∈ (mainRun emptyEnv (Except.ok [sampleTool]) okResponder []).outputs
    ∧ (mainRun emptyEnv (Except.ok [sampleTool]) okResponder []).forwarded
        = listJobsPrompt
            :: (replLoop (assembleAgent (mainAgent0 emptyEnv) [sampleTool]) okResponder []).forwarded :=
  claim9_auto_list emptyEnv okResponder (("done").data) [sampleTool] [] (by decide) rfl

/-- C10: the REPL `query` branch always uses the hardcoded row limit 100:
any dispatch that yields a query action carries limit 100, and for every
table name (any casing of the prefix, nonempty trimmed argument) the
forwarded instruction is the query template with limit 100; no REPL input
can select a different limit. -/
theorem claim10_query_limit : ∀ (line t : Str) (n : Nat) (a : CSVStrandsAgent)
    (hnd : AgentHandle) (rt : Str → Except Str Str) (p arg : Str),
    (dispatch line = Action.query t n → n = 100)
    ∧ (a.agent = some hnd → pyLower p = ("query").data → pyStrip arg ≠ [] →
        (processLine a rt (p ++ ' ' :: arg)).2.1 = [queryPrompt (pyStrip arg) 100]) := by
  intro line t n a hnd rt p arg
  refine ⟨?_, ?_⟩
  · intro h
    unfold dispatch dispatchStripped at h
    split_ifs at h
    all_goals cases h
    all_goals rfl
  · intro hag hp ha
    have hd := dispatch_query_eq p arg hp ha
    cases hrt : rt (queryPrompt (pyStrip arg) 100) <;>
      simp [processLine, hd, runAgentMethod, hag, hrt]

/-- C10, witness: `query t1` dispatches with limit 100 and (via the
uppercase-prefixed line `QUERY t1`) forwards the query template with
limit 100. -/
theorem claim10_witness :
    (100 : Nat) = 100
    ∧ (processLine readyAgent okResponder ((("QUERY").data) ++ ' ' :: (("t1").data))).2.1
        = [queryPrompt (pyStrip (("t1").data)) 100] :=
  ⟨(claim10_query_limit (("query t1").data) (("t1").data) 100 readyAgent readyHandle
      okResponder (("QUERY").data) (("t1").data)).1 (by decide),
   (claim10_query_limit (("query t1").data) (("t1").data) 100 readyAgent readyHandle
      okResponder (("QUERY").data) (("t1").data)).2 rfl (by decide) (by decide)⟩

end CSVAgent
